import Mathlib

/-!
Verification development for the visual-product-matcher repository.

The backend services (ProductDatabase.js, ImageProcessor.js, the Express
search route in index.js, errorHandler.js) and the relevant frontend
components (App.jsx retry logic, SearchResults/FilterControl threshold
filtering) are shallowly embedded below.  JavaScript numbers are modelled
as real numbers for the embedding/cosine pipeline and as rationals for
client-side similarity scores; Buffers are modelled by their length
together with the outcome of the external sharp metadata call; network,
model-inference and file-system effects are passed in as explicit
arguments.
-/

namespace VPM

/-- A catalog entry of products.json (§ Product in the data model). -/
structure Product where
  id : String
  name : String
  category : String
  imageUrl : String
  deriving DecidableEq

/-- In-memory state of the ProductDatabase singleton: the product list, the
id → embedding map (an association list standing for the JS Map) and the
loaded flag. -/
structure ProductDatabase where
  products : List Product
  embeddings : List (String × List ℝ)
  loaded : Bool

/-- The accumulation loop shared by ProductDatabase.cosineSimilarity and
ImageProcessor.computeSimilarity: one pass over paired entries accumulating
dotProduct, norm1 (sum of squares of the first vector) and norm2. -/
def simLoop : List (ℝ × ℝ) → ℝ → ℝ → ℝ → ℝ × ℝ × ℝ
  | [], dotProduct, norm1, norm2 => (dotProduct, norm1, norm2)
  | (x, y) :: rest, dotProduct, norm1, norm2 =>
      simLoop rest (dotProduct + x * y) (norm1 + x * x) (norm2 + y * y)

/-- The common body of both cosine-similarity implementations after their
guards: run the loop, take square roots, return 0 when either norm is 0,
otherwise the quotient. -/
noncomputable def cosValue (e1 e2 : List ℝ) : ℝ :=
  let s := simLoop (e1.zip e2) 0 0 0
  let norm1 := Real.sqrt s.2.1
  let norm2 := Real.sqrt s.2.2
  if norm1 = 0 ∨ norm2 = 0 then 0 else s.1 / (norm1 * norm2)

/-- ProductDatabase.cosineSimilarity (ProductDatabase.js lines 150-173):
throws when the lengths differ, else the shared cosine computation. -/
noncomputable def cosineSimilarity (e1 e2 : List ℝ) : Except String ℝ :=
  if e1.length ≠ e2.length then Except.error "Embeddings must have the same length"
  else Except.ok (cosValue e1 e2)

/-- An argument value handed to ImageProcessor.computeSimilarity: either a
numeric array or some non-array JS value. -/
inductive JsInput where
  | arr (xs : List ℝ)
  | notArray

/-- ImageProcessor.computeSimilarity (ImageProcessor.js lines 275-306):
array check, then length check, then emptiness check, then the shared
cosine computation. -/
noncomputable def computeSimilarity (v1 v2 : JsInput) : Except String ℝ :=
  match v1, v2 with
  | JsInput.arr e1, JsInput.arr e2 =>
      if e1.length ≠ e2.length then Except.error "Embeddings must have the same length"
      else if e1.length = 0 then Except.error "Embeddings cannot be empty"
      else Except.ok (cosValue e1 e2)
  | _, _ => Except.error "Embeddings must be arrays"

/-- One {product, score} pair collected by searchSimilar. -/
structure ScoredProduct where
  product : Product
  score : ℝ

/-- The sort order induced by the comparator (a, b) => b.score - a.score:
descending by score. -/
def scoreDesc (a b : ScoredProduct) : Prop := b.score ≤ a.score

noncomputable instance : DecidableRel scoreDesc :=
  fun a b => inferInstanceAs (Decidable (b.score ≤ a.score))

instance : IsTotal ScoredProduct scoreDesc :=
  ⟨fun a b => le_total b.score a.score⟩

instance : IsTrans ScoredProduct scoreDesc :=
  ⟨fun _ _ _ h1 h2 => le_trans h2 h1⟩

/-- The collection loop of searchSimilar (ProductDatabase.js lines 121-135):
for each product look its embedding up, skip the product when there is none
(only a console warning), otherwise score it with cosineSimilarity; a
similarity error propagates out of the loop. -/
noncomputable def collectScores (queryEmbedding : List ℝ)
    (embeddings : List (String × List ℝ)) :
    List Product → Except String (List ScoredProduct)
  | [] => Except.ok []
  | p :: ps =>
      match embeddings.lookup p.id with
      | none => collectScores queryEmbedding embeddings ps
      | some e =>
          match cosineSimilarity queryEmbedding e,
              collectScores queryEmbedding embeddings ps with
          | Except.error msg, _ => Except.error msg
          | _, Except.error msg => Except.error msg
          | Except.ok s, Except.ok rest => Except.ok (ScoredProduct.mk p s :: rest)

/-- ProductDatabase.searchSimilar (ProductDatabase.js lines 113-142): guard
on the loaded flag and on an empty embedding map, collect {product, score}
pairs, sort descending by score, return the first topK (default 20). -/
noncomputable def searchSimilar (db : ProductDatabase) (queryEmbedding : List ℝ)
    (topK : ℕ := 20) : Except String (List ScoredProduct) :=
  if db.loaded = false then
    Except.error "Products not loaded. Call loadProducts() first."
  else if db.embeddings.isEmpty then
    Except.error "Embeddings not loaded. Call loadEmbeddings() first."
  else
    match collectScores queryEmbedding db.embeddings db.products with
    | Except.error msg => Except.error msg
    | Except.ok results => Except.ok ((List.insertionSort scoreDesc results).take topK)

/-- The mathematical dot product of two equal-length vectors, written as the
specification does. -/
def dotSpec (a b : List ℝ) : ℝ := ((a.zip b).map fun p => p.1 * p.2).sum

/-- Sum of squares of a vector, used by the spec-side Euclidean norm. -/
def sumSqSpec (a : List ℝ) : ℝ := (a.map fun x => x * x).sum

/-- The Euclidean norm written as the specification does. -/
noncomputable def normSpec (a : List ℝ) : ℝ := Real.sqrt (sumSqSpec a)

/-- One formatted entry of the search response: the product fields plus
similarityScore and rank (index.js lines 329-333). -/
structure FormattedResult where
  id : String
  name : String
  category : String
  imageUrl : String
  similarityScore : ℤ
  rank : ℕ
  deriving DecidableEq

/-- Math.round on exact reals: floor of x + 1/2 (ties round up). -/
noncomputable def jsRound (x : ℝ) : ℤ := ⌊x + 1 / 2⌋

/-- The body of results.map((result, index) => ...): spread of the product
fields, similarityScore as the rounded percentage, rank as index + 1. -/
noncomputable def formatOne (r : ScoredProduct) (index : ℕ) : FormattedResult :=
  { id := r.product.id
    name := r.product.name
    category := r.product.category
    imageUrl := r.product.imageUrl
    similarityScore := jsRound (r.score * 100)
    rank := index + 1 }

/-- The map of the route handler with the running index made explicit. -/
noncomputable def formatResultsFrom : ℕ → List ScoredProduct → List FormattedResult
  | _, [] => []
  | index, r :: rs => formatOne r index :: formatResultsFrom (index + 1) rs

/-- formattedResults of the search route (index.js lines 329-333). -/
noncomputable def formattedResults (results : List ScoredProduct) : List FormattedResult :=
  formatResultsFrom 0 results

/-- Image metadata as returned by sharp(imageBuffer).metadata(). -/
structure ImageMetadata where
  format : String
  width : ℕ
  height : ℕ
  deriving DecidableEq

/-- Outcome of interacting with the external sharp library inside
validateImage: metadata is produced, the metadata call throws (the inner
catch of ImageProcessor.js lines 79-86), or an unexpected exception is
thrown while validating (the outer catch of lines 121-127). -/
inductive SharpOutcome where
  | meta (m : ImageMetadata)
  | decodeError
  | exn
  deriving DecidableEq

/-- Result object of validateImage: {valid: false, error} or
{valid: true, metadata: {format, width, height, size}}. -/
inductive ValidationResult where
  | invalid (error : String)
  | valid (format : String) (width height size : ℕ)
  deriving DecidableEq

/-- this.config.maxFileSizeBytes: 10 MiB. -/
def maxFileSizeBytes : ℕ := 10 * 1024 * 1024

/-- this.config.allowedFormats. -/
def allowedFormats : List String :=
  ["image/jpeg", "image/png", "image/webp", "image/gif"]

/-- ImageProcessor.validateImage (ImageProcessor.js lines 59-128), with the
buffer abstracted to its length and the sharp interaction to a
SharpOutcome.  The function never throws: the outer catch turns an
unexpected exception into the generic rejection. -/
def validateImage (bufferLength : ℕ) (sharp : SharpOutcome) : ValidationResult :=
  if maxFileSizeBytes < bufferLength then
    ValidationResult.invalid "Image size exceeds maximum allowed size of 10MB"
  else if bufferLength < 100 then
    ValidationResult.invalid "Image file is too small or corrupted"
  else
    match sharp with
    | SharpOutcome.decodeError => ValidationResult.invalid "Invalid or corrupted image file"
    | SharpOutcome.exn => ValidationResult.invalid "Failed to validate image"
    | SharpOutcome.meta m =>
        if ("image/" ++ m.format) ∉ allowedFormats then
          ValidationResult.invalid
            "Unsupported image format. Allowed formats: image/jpeg, image/png, image/webp, image/gif"
        else if m.width < 50 ∨ m.height < 50 then
          ValidationResult.invalid "Image dimensions too small. Minimum: 50x50px"
        else if 4096 < m.width ∨ 4096 < m.height then
          ValidationResult.invalid "Image dimensions too large. Maximum: 4096x4096px"
        else ValidationResult.valid m.format m.width m.height bufferLength

/-- The uniform error-response body written by the errorHandler middleware,
plus the HTTP status it is sent with; stack is present only when it is
spread into the body. -/
structure ErrorResponse where
  status : ℕ
  success : Bool
  error : String
  code : String
  actionable : String
  stack : Option String
  deriving DecidableEq

/-- The shapes of thrown values the errorHandler middleware distinguishes:
an APIError (code, message, statusCode), a MulterError (code, message), a
ValidationError (message), or any other error.  Each carries its stack
string; an absent or empty message is the empty string. -/
inductive ServerError where
  | apiError (code message : String) (statusCode : ℕ) (stack : String)
  | multerError (mcode message stack : String)
  | validationError (message stack : String)
  | genericError (message stack : String)

/-- errorMapping (errorHandler.js lines 31-56): code → (statusCode,
userMessage). -/
def errorMapping (code : String) : Option (ℕ × String) :=
  if code = "INVALID_IMAGE" then
    some (400, "The provided image is invalid or unsupported. Please upload a valid JPEG, PNG, WebP, or GIF image.")
  else if code = "PROCESSING_ERROR" then
    some (500, "We encountered an error while processing your image. Please try again.")
  else if code = "SERVICE_UNAVAILABLE" then
    some (503, "The service is temporarily unavailable. Please try again in a few moments.")
  else if code = "RATE_LIMIT_EXCEEDED" then
    some (429, "Too many requests. Please wait a moment before trying again.")
  else if code = "DATABASE_ERROR" then
    some (500, "We encountered a database error. Please try again.")
  else if code = "VALIDATION_ERROR" then
    some (400, "The request contains invalid data. Please check your input and try again.")
  else none

/-- getActionableGuidance (errorHandler.js lines 131-142). -/
def getActionableGuidance (code : String) : String :=
  if code = "INVALID_IMAGE" then
    "Please upload a valid image file (JPEG, PNG, WebP, or GIF) under 10MB"
  else if code = "PROCESSING_ERROR" then
    "Try uploading a different image or retry in a moment"
  else if code = "SERVICE_UNAVAILABLE" then
    "Please wait a moment and try again"
  else if code = "RATE_LIMIT_EXCEEDED" then
    "Please wait a few seconds before making another request"
  else if code = "DATABASE_ERROR" then
    "Please try again in a moment"
  else if code = "VALIDATION_ERROR" then
    "Please check your input and ensure all required fields are provided"
  else "Please try again later"

/-- The conditional spread of the stack trace into the response body:
process.env.NODE_ENV === 'development' && { stack: err.stack }. -/
def devStack (nodeEnv stack : String) : Option String :=
  if nodeEnv = "development" then some stack else none

/-- The centralized errorHandler middleware (errorHandler.js lines 62-126),
as a function from the thrown value and NODE_ENV to the response sent. -/
def errorHandler (err : ServerError) (nodeEnv : String) : ErrorResponse :=
  match err with
  | ServerError.apiError code message statusCode stack =>
      match errorMapping code with
      | some ms =>
          { status := ms.1
            success := false
            error := if message = "" then ms.2 else message
            code := code
            actionable := getActionableGuidance code
            stack := devStack nodeEnv stack }
      | none =>
          { status := statusCode
            success := false
            error := message
            code := code
            actionable := "Please try again later"
            stack := devStack nodeEnv stack }
  | ServerError.multerError mcode message stack =>
      { status := 400
        success := false
        error := if mcode = "LIMIT_FILE_SIZE" then "File size exceeds the maximum limit of 10MB"
                 else "File upload error: " ++ message
        code := "INVALID_IMAGE"
        actionable := if mcode = "LIMIT_FILE_SIZE" then "Please upload a smaller image"
                      else "Please check your file and try again"
        stack := devStack nodeEnv stack }
  | ServerError.validationError message stack =>
      { status := 400
        success := false
        error := message
        code := "VALIDATION_ERROR"
        actionable := "Please check your input and try again"
        stack := devStack nodeEnv stack }
  | ServerError.genericError message stack =>
      { status := 500
        success := false
        error := if message = "" then "An unexpected error occurred" else message
        code := "SERVICE_UNAVAILABLE"
        actionable := "Please try again later or contact support if the problem persists"
        stack := devStack nodeEnv stack }

/-- String.prototype.includes as a substring test on the character lists. -/
def jsIncludes (s pat : String) : Bool := decide (pat.toList <:+: s.toList)

/-- allowedOrigins of index.js lines 166-168: the comma-separated, trimmed
FRONTEND_URL entries, with the default when the variable is unset (or empty,
which is falsy in JS). -/
def allowedOriginsOf (frontendUrl : Option String) : List String :=
  match frontendUrl with
  | some s => if s = "" then ["http://localhost:5173"]
              else (s.splitOn ",").map fun u => u.trim
  | none => ["http://localhost:5173"]

/-- corsOptions.origin (index.js lines 170-188) as a decision function: no
(or falsy) Origin is allowed; under NODE_ENV development any origin
containing localhost is allowed; otherwise only exact members of the
allow-list. -/
def corsOriginAllows (nodeEnv : String) (frontendUrl : Option String)
    (origin : Option String) : Bool :=
  match origin with
  | none => true
  | some o =>
      if o = "" then true
      else if nodeEnv = "development" ∧ jsIncludes o "localhost" = true then true
      else decide (o ∈ allowedOriginsOf frontendUrl)

/-- What the POST /api/search request carries: whether multer parsed a file
field, and the imageUrl body field if any. -/
structure SearchRequest where
  hasFile : Bool
  imageUrl : Option String

/-- The effectful steps of the search route, passed in as outcomes: URL
format validation, loadImageFromUrl, the obtained buffer length and its
sharp outcome, and extractFeatures. -/
structure SearchEffects where
  urlFormatValid : Bool
  fetchResult : Except String Unit
  bufferLength : ℕ
  sharp : SharpOutcome
  extraction : Except String (List ℝ)

/-- The APIError value thrown by the route handler. -/
structure APIErrorValue where
  code : String
  message : String
  statusCode : ℕ
  deriving DecidableEq

/-- Successful payload of POST /api/search (success, uploadedImageUrl,
results, count). -/
structure SearchSuccess where
  uploadedImageUrl : String
  results : List FormattedResult
  count : ℕ

/-- First section of the search route (index.js lines 229-272): take the
uploaded file if present, else use imageUrl (an absent or empty field falls
to the no-image VALIDATION_ERROR), validating its format and fetching it. -/
def acquireImage (req : SearchRequest) (fx : SearchEffects) : Except APIErrorValue String :=
  if req.hasFile then Except.ok "uploaded-file"
  else
    match req.imageUrl with
    | some u =>
        if u = "" then
          Except.error ⟨"VALIDATION_ERROR",
            "No image provided. Please upload an image file or provide an imageUrl", 400⟩
        else if fx.urlFormatValid = false then
          Except.error ⟨"INVALID_IMAGE", "Invalid image URL format", 400⟩
        else
          match fx.fetchResult with
          | Except.error e => Except.error ⟨"INVALID_IMAGE", e, 400⟩
          | Except.ok _ => Except.ok u
    | none =>
        Except.error ⟨"VALIDATION_ERROR",
          "No image provided. Please upload an image file or provide an imageUrl", 400⟩

/-- The POST /api/search handler (index.js lines 218-348): acquire the
image, validate it, extract features, search, and format; each failure is
the APIError the route throws. -/
noncomputable def searchHandler (db : ProductDatabase) (req : SearchRequest)
    (fx : SearchEffects) : Except APIErrorValue SearchSuccess :=
  match acquireImage req fx with
  | Except.error e => Except.error e
  | Except.ok uploadedImageUrl =>
      match validateImage fx.bufferLength fx.sharp with
      | ValidationResult.invalid e => Except.error ⟨"INVALID_IMAGE", e, 400⟩
      | ValidationResult.valid _ _ _ _ =>
          match fx.extraction with
          | Except.error _ => Except.error ⟨"PROCESSING_ERROR", "Failed to process image", 500⟩
          | Except.ok embedding =>
              match searchSimilar db embedding 20 with
              | Except.error _ =>
                  Except.error ⟨"DATABASE_ERROR", "Failed to search for similar products", 500⟩
              | Except.ok results =>
                  Except.ok ⟨uploadedImageUrl, formattedResults results,
                    (formattedResults results).length⟩

/-- The HTTP outcome of one POST /api/search call: the success payload, or
the response the errorHandler middleware sends for the thrown APIError
(asyncHandler forwards the rejection to it). -/
inductive SearchOutcome where
  | ok (payload : SearchSuccess)
  | err (resp : ErrorResponse)

/-- Composition of the route handler with the error middleware. -/
noncomputable def searchEndpoint (db : ProductDatabase) (req : SearchRequest)
    (fx : SearchEffects) (nodeEnv stack : String) : SearchOutcome :=
  match searchHandler db req fx with
  | Except.ok payload => SearchOutcome.ok payload
  | Except.error e =>
      SearchOutcome.err (errorHandler (ServerError.apiError e.code e.message e.statusCode stack) nodeEnv)

/-- HTTP status of a search outcome. -/
def statusOf : SearchOutcome → ℕ
  | SearchOutcome.ok _ => 200
  | SearchOutcome.err r => r.status

/-- Error code of a search outcome, none on success. -/
def codeOf : SearchOutcome → Option String
  | SearchOutcome.ok _ => none
  | SearchOutcome.err r => some r.code

/-- The error descriptor the App shell stores for the banner. -/
structure ErrorBanner where
  message : String
  actionable : String
  retryable : Bool
  deriving DecidableEq

/-- The App component state touched by handleImageSubmit (App.jsx): search
results (payload abstracted to a list of tokens), the loading flag, the
error banner and the retry counter. -/
structure AppState where
  searchResults : List ℕ
  isLoading : Bool
  error : Option ErrorBanner
  retryCount : ℕ
  deriving DecidableEq

/-- Outcome of one searchByImage call: success with results, or a rejection
carrying the retryable flag and the optional userMessage/actionable set by
the API client interceptor. -/
inductive AttemptOutcome where
  | success (results : List ℕ)
  | failure (retryable : Bool) (userMessage actionable : Option String)

/-- MAX_RETRIES of App.jsx. -/
def maxRetries : ℕ := 2

/-- One invocation of the handleImageSubmit closure (App.jsx lines 19-60)
given the outcome of its API call.  React re-creates the function on every
render, closing over that render's retryCount: closureRetryCount is the
value captured when the closure was created, and it is what the retry
guard, the backoff delay 1000 × (retryCount + 1) and the banner's
retryable flag read.  The setters act on the live committed state s — the
functional update setRetryCount(prev => prev + 1) does increment the
committed counter, but never the closure's copy.  Returns the committed
state after the invocation finishes (the finally clause has run, clearing
isLoading) and the backoff delay of the scheduled re-invocation, if one
was scheduled. -/
def handleImageSubmit (closureRetryCount : ℕ) (s : AppState)
    (outcome : AttemptOutcome) : AppState × Option ℕ :=
  let s := { s with isLoading := true, error := none }
  match outcome with
  | AttemptOutcome.success results =>
      ({ s with searchResults := results, retryCount := 0, isLoading := false }, none)
  | AttemptOutcome.failure retryable userMessage actionable =>
      if retryable = true ∧ closureRetryCount < maxRetries then
        ({ s with retryCount := s.retryCount + 1, isLoading := false },
          some (1000 * (closureRetryCount + 1)))
      else
        ({ s with
            error := some
              { message := userMessage.getD "An error occurred while searching"
                actionable := actionable.getD "Please try again"
                retryable := decide (retryable = true ∧ closureRetryCount < maxRetries) }
            retryCount := 0
            isLoading := false }, none)

/-- The chain of calls started by one submission, consuming one attempt
outcome per call.  The setTimeout callback invokes the same render's
handleImageSubmit closure, so every link of the chain reads the same
frozen closureRetryCount while the committed state threads through; the
trace records the state after each call completes and the delay of the
retry it scheduled, if any. -/
def runSearch (closureRetryCount : ℕ) (s : AppState) :
    List AttemptOutcome → List (AppState × Option ℕ)
  | [] => []
  | o :: os =>
      match handleImageSubmit closureRetryCount s o with
      | (s1, some d) => (s1, some d) :: runSearch closureRetryCount s1 os
      | (s1, none) => [(s1, none)]

/-- State of the App shell before any submission. -/
def initialAppState : AppState :=
  { searchResults := [], isLoading := false, error := none, retryCount := 0 }

/-- A product object as held by the SearchResults component (scores are the
0-100 percentages of the response). -/
structure ClientProduct where
  id : String
  name : String
  category : String
  imageUrl : String
  similarityScore : ℚ
  deriving DecidableEq

/-- The derived list of SearchResults (part of its second useEffect):
products.filter(product => product.similarityScore >= threshold). -/
def filteredProducts (products : List ClientProduct) (threshold : ℚ) : List ClientProduct :=
  products.filter fun p => decide (threshold ≤ p.similarityScore)

/-- The resultCount prop handed to FilterControl and displayed in its
"Showing N results" line: the length of the filtered list. -/
def filterResultCount (products : List ClientProduct) (threshold : ℚ) : ℕ :=
  (filteredProducts products threshold).length

/-- Sample catalog entry used to exercise the pipeline. -/
def sampleProduct : Product :=
  { id := "prod_001", name := "Wireless Headphones", category := "Electronics",
    imageUrl := "/images/headphones.jpg" }

/-- A loaded database holding the sample product with a one-dimensional
embedding. -/
def sampleDB : ProductDatabase :=
  { products := [sampleProduct], embeddings := [("prod_001", [1])], loaded := true }

/-- Catalog entry whose embedding points opposite to the sample query. -/
def negProduct : Product :=
  { id := "prod_neg", name := "Opposite", category := "Test", imageUrl := "/images/opp.jpg" }

/-- A loaded database whose single embedding is the negation of the query
used against it. -/
def negDB : ProductDatabase :=
  { products := [negProduct], embeddings := [("prod_neg", [-1])], loaded := true }

/-- An unloaded database (loadProducts has not run). -/
def unloadedDB : ProductDatabase :=
  { products := [], embeddings := [], loaded := false }

/-- Demo results A(95), B(87), C(72) from the specification's filter
boundary example. -/
def demoA : ClientProduct :=
  { id := "A", name := "A", category := "cat", imageUrl := "a.jpg", similarityScore := 95 }

/-- Second demo result. -/
def demoB : ClientProduct :=
  { id := "B", name := "B", category := "cat", imageUrl := "b.jpg", similarityScore := 87 }

/-- Third demo result. -/
def demoC : ClientProduct :=
  { id := "C", name := "C", category := "cat", imageUrl := "c.jpg", similarityScore := 72 }

/-- The demo result list in response order. -/
def demoResults : List ClientProduct := [demoA, demoB, demoC]

/-- The route handler reached the validation step with some image buffer:
either a file was uploaded, or a non-empty imageUrl passed format validation
and was fetched successfully. -/
def imageObtained (req : SearchRequest) (fx : SearchEffects) : Prop :=
  req.hasFile = true ∨
    ∃ u, req.imageUrl = some u ∧ u ≠ "" ∧ fx.urlFormatValid = true ∧
      fx.fetchResult = Except.ok ()

/-- A request carrying neither a file nor an imageUrl field. -/
def reqNone : SearchRequest := { hasFile := false, imageUrl := none }

/-- A request carrying a multipart file. -/
def reqFile : SearchRequest := { hasFile := true, imageUrl := none }

/-- Effects of a well-behaved request: URL valid, fetch succeeds, a small
valid png buffer, extraction succeeds. -/
def fxGood : SearchEffects :=
  { urlFormatValid := true
    fetchResult := Except.ok ()
    bufferLength := 1000
    sharp := SharpOutcome.meta { format := "png", width := 100, height := 100 }
    extraction := Except.ok [1] }

/-! ## Numeric core: the accumulation loop and the cosine formula -/

theorem simLoop_eval : ∀ (l : List (ℝ × ℝ)) (d n1 n2 : ℝ),
    simLoop l d n1 n2 =
      (d + (l.map fun p => p.1 * p.2).sum,
        n1 + (l.map fun p => p.1 * p.1).sum,
        n2 + (l.map fun p => p.2 * p.2).sum)
  | [], d, n1, n2 => by simp [simLoop]
  | (x, y) :: t, d, n1, n2 => by
      simp only [simLoop, simLoop_eval t, List.map_cons, List.sum_cons, Prod.mk.injEq]
      exact ⟨by ring, by ring, by ring⟩

theorem zip_sq_fst : ∀ (a b : List ℝ), a.length = b.length →
    ((a.zip b).map fun p => p.1 * p.1).sum = sumSqSpec a
  | [], [], _ => by simp [sumSqSpec]
  | [], _ :: _, h => by simp at h
  | _ :: _, [], h => by simp at h
  | x :: xs, y :: ys, h => by
      have h' : xs.length = ys.length := by simpa using h
      have ih := zip_sq_fst xs ys h'
      simp only [sumSqSpec] at ih ⊢
      simp [List.zip_cons_cons, ih]

theorem zip_sq_snd : ∀ (a b : List ℝ), a.length = b.length →
    ((a.zip b).map fun p => p.2 * p.2).sum = sumSqSpec b
  | [], [], _ => by simp [sumSqSpec]
  | [], _ :: _, h => by simp at h
  | _ :: _, [], h => by simp at h
  | x :: xs, y :: ys, h => by
      have h' : xs.length = ys.length := by simpa using h
      have ih := zip_sq_snd xs ys h'
      simp only [sumSqSpec] at ih ⊢
      simp [List.zip_cons_cons, ih]

theorem sumSqSpec_nonneg (a : List ℝ) : 0 ≤ sumSqSpec a := by
  apply List.sum_nonneg
  intro x hx
  obtain ⟨y, _, rfl⟩ := List.mem_map.mp hx
  exact mul_self_nonneg y

theorem normSpec_eq_zero_iff (a : List ℝ) : normSpec a = 0 ↔ sumSqSpec a = 0 := by
  unfold normSpec
  rw [Real.sqrt_eq_zero']
  exact ⟨fun h => le_antisymm h (sumSqSpec_nonneg a), fun h => le_of_eq h⟩

theorem cosValue_eq (a b : List ℝ) (h : a.length = b.length) :
    cosValue a b =
      if normSpec a = 0 ∨ normSpec b = 0 then 0
      else dotSpec a b / (normSpec a * normSpec b) := by
  unfold cosValue normSpec dotSpec
  rw [simLoop_eval]
  simp only [zero_add, zip_sq_fst a b h, zip_sq_snd a b h]

/-- C3: both cosine-similarity implementations compute the dot product
divided by the product of the Euclidean norms, return exactly 0 when either
norm is zero, and throw the claimed messages: computeSimilarity rejects
non-array inputs, mismatched lengths and empty vectors, while
cosineSimilarity rejects mismatched lengths. -/
theorem C3_cosine_similarity :
    (∀ a b : List ℝ, a.length = b.length → a ≠ [] →
      normSpec a ≠ 0 → normSpec b ≠ 0 →
      cosineSimilarity a b = Except.ok (dotSpec a b / (normSpec a * normSpec b)) ∧
      computeSimilarity (JsInput.arr a) (JsInput.arr b) = cosineSimilarity a b) ∧
    (∀ a b : List ℝ, a.length = b.length → (normSpec a = 0 ∨ normSpec b = 0) →
      cosineSimilarity a b = Except.ok 0 ∧
      (a ≠ [] → computeSimilarity (JsInput.arr a) (JsInput.arr b) = Except.ok 0)) ∧
    (∀ v : JsInput,
      computeSimilarity JsInput.notArray v = Except.error "Embeddings must be arrays" ∧
      computeSimilarity v JsInput.notArray = Except.error "Embeddings must be arrays") ∧
    (∀ a b : List ℝ, a.length ≠ b.length →
      cosineSimilarity a b = Except.error "Embeddings must have the same length" ∧
      computeSimilarity (JsInput.arr a) (JsInput.arr b) =
        Except.error "Embeddings must have the same length") ∧
    (∀ a b : List ℝ, a.length = b.length → a = [] →
      computeSimilarity (JsInput.arr a) (JsInput.arr b) =
        Except.error "Embeddings cannot be empty") := by
  refine ⟨?_, ?_, ?_, ?_, ?_⟩
  · intro a b hlen hne hna hnb
    have hc : cosValue a b = dotSpec a b / (normSpec a * normSpec b) := by
      rw [cosValue_eq a b hlen, if_neg]
      push_neg
      exact ⟨hna, hnb⟩
    have hlenne : a.length ≠ 0 := by
      simpa [List.length_eq_zero] using hne
    have hblenne : b.length ≠ 0 := hlen ▸ hlenne
    constructor
    · simp [cosineSimilarity, hlen, hc]
    · simp [computeSimilarity, cosineSimilarity, hlen, hlenne, hblenne]
  · intro a b hlen hz
    have hc : cosValue a b = 0 := by
      rw [cosValue_eq a b hlen, if_pos hz]
    refine ⟨by simp [cosineSimilarity, hlen, hc], ?_⟩
    intro hne
    have hlenne : a.length ≠ 0 := by
      simpa [List.length_eq_zero] using hne
    have hblenne : b.length ≠ 0 := hlen ▸ hlenne
    simp [computeSimilarity, hlen, hlenne, hblenne, hc]
  · intro v
    cases v <;> exact ⟨rfl, rfl⟩
  · intro a b hlen
    exact ⟨by simp [cosineSimilarity, hlen], by simp [computeSimilarity, hlen]⟩
  · intro a b hlen hnil
    subst hnil
    have hb : b = [] := by simpa [eq_comm, List.length_eq_zero] using hlen
    subst hb
    rfl

theorem normSpec_single_one : normSpec [(1 : ℝ)] = 1 := by
  simp [normSpec, sumSqSpec]

theorem normSpec_single_zero : normSpec [(0 : ℝ)] = 0 := by
  simp [normSpec, sumSqSpec]

/-- Witness for C3 at concrete vectors. -/
theorem C3_witness :
    (cosineSimilarity [(1 : ℝ)] [1] =
      Except.ok (dotSpec [1] [1] / (normSpec [1] * normSpec [1])) ∧
      computeSimilarity (JsInput.arr [(1 : ℝ)]) (JsInput.arr [1]) =
        cosineSimilarity [1] [1]) ∧
    cosineSimilarity [(0 : ℝ)] [0] = Except.ok 0 ∧
    cosineSimilarity [(1 : ℝ)] [1, 2] = Except.error "Embeddings must have the same length" ∧
    computeSimilarity (JsInput.arr ([] : List ℝ)) (JsInput.arr []) =
      Except.error "Embeddings cannot be empty" :=
  ⟨C3_cosine_similarity.1 [(1 : ℝ)] [1] rfl (by simp)
      (by simp [normSpec_single_one]) (by simp [normSpec_single_one]),
    (C3_cosine_similarity.2.1 [(0 : ℝ)] [0] rfl (Or.inl normSpec_single_zero)).1,
    (C3_cosine_similarity.2.2.2.1 [(1 : ℝ)] [1, 2] (by simp)).1,
    C3_cosine_similarity.2.2.2.2 [] [] rfl rfl⟩

/-! ## The similarity search of ProductDatabase -/

theorem mem_of_lookup_eq_some :
    ∀ {l : List (String × List ℝ)} {k : String} {v : List ℝ},
      l.lookup k = some v → (k, v) ∈ l
  | [], _, _, h => by simp [List.lookup] at h
  | (a, b) :: t, k, v, h => by
      rw [List.lookup_cons] at h
      by_cases hk : k == a
      · simp only [hk] at h
        obtain rfl : b = v := by simpa using h
        have : k = a := by simpa using hk
        subst this
        exact List.mem_cons_self _ _
      · rw [Bool.not_eq_true] at hk
        simp only [hk] at h
        exact List.mem_cons_of_mem _ (mem_of_lookup_eq_some h)

theorem collectScores_eq (q : List ℝ) (embs : List (String × List ℝ))
    (hlen : ∀ pe ∈ embs, (pe.2 : List ℝ).length = q.length) :
    ∀ ps : List Product,
      collectScores q embs ps =
        Except.ok (ps.filterMap fun p =>
          (embs.lookup p.id).map fun e => ScoredProduct.mk p (cosValue q e))
  | [] => by simp [collectScores]
  | p :: ps => by
      have ih := collectScores_eq q embs hlen ps
      cases hl : embs.lookup p.id with
      | none => simp [collectScores, hl, ih]
      | some e =>
          have he : e.length = q.length := hlen (p.id, e) (mem_of_lookup_eq_some hl)
          have hc : cosineSimilarity q e = Except.ok (cosValue q e) := by
            simp [cosineSimilarity, he]
          simp [collectScores, hl, ih, hc]

/-- C2: searchSimilar scores exactly the products that have an embedding
(skipping the rest), sorts the {product, score} pairs descending by score,
returns the first topK (20 by default), and throws when products or
embeddings are not loaded. -/
theorem C2_searchSimilar (db : ProductDatabase) (q : List ℝ) (topK : ℕ) :
    (db.loaded = false →
      searchSimilar db q topK =
        Except.error "Products not loaded. Call loadProducts() first.") ∧
    (db.loaded = true → db.embeddings = [] →
      searchSimilar db q topK =
        Except.error "Embeddings not loaded. Call loadEmbeddings() first.") ∧
    searchSimilar db q = searchSimilar db q 20 ∧
    (db.loaded = true → db.embeddings ≠ [] →
      (∀ pe ∈ db.embeddings, (pe.2 : List ℝ).length = q.length) →
      ∃ sorted : List ScoredProduct,
        sorted.Perm (db.products.filterMap fun p =>
          (db.embeddings.lookup p.id).map fun e => ScoredProduct.mk p (cosValue q e)) ∧
        sorted.Pairwise scoreDesc ∧
        searchSimilar db q topK = Except.ok (sorted.take topK)) := by
  refine ⟨?_, ?_, rfl, ?_⟩
  · intro h
    simp [searchSimilar, h]
  · intro h1 h2
    simp [searchSimilar, h1, h2]
  · intro h1 h2 h3
    have hemp : db.embeddings.isEmpty = false := List.isEmpty_eq_false.mpr h2
    refine ⟨List.insertionSort scoreDesc
      (db.products.filterMap fun p =>
        (db.embeddings.lookup p.id).map fun e => ScoredProduct.mk p (cosValue q e)),
      List.perm_insertionSort scoreDesc _, List.sorted_insertionSort scoreDesc _, ?_⟩
    simp [searchSimilar, h1, hemp, collectScores_eq q db.embeddings h3 db.products]

/-- Witness for C2 on a loaded one-product database. -/
theorem C2_witness :
    sampleDB.loaded = true ∧ sampleDB.embeddings ≠ [] ∧
    (∃ sorted : List ScoredProduct,
      sorted.Perm (sampleDB.products.filterMap fun p =>
        (sampleDB.embeddings.lookup p.id).map fun e =>
          ScoredProduct.mk p (cosValue [1] e)) ∧
      sorted.Pairwise scoreDesc ∧
      searchSimilar sampleDB [1] 5 = Except.ok (sorted.take 5)) :=
  ⟨rfl, by simp [sampleDB],
    (C2_searchSimilar sampleDB [1] 5).2.2.2 rfl (by simp [sampleDB]) (by simp [sampleDB])⟩

/-! ## Formatting of the search response -/

theorem searchSimilar_ok_sorted {db : ProductDatabase} {q : List ℝ} {topK : ℕ}
    {results : List ScoredProduct}
    (h : searchSimilar db q topK = Except.ok results) :
    results.Pairwise scoreDesc ∧ results.length ≤ topK := by
  unfold searchSimilar at h
  split at h
  · exact absurd h (by simp)
  · split at h
    · exact absurd h (by simp)
    · split at h
      · exact absurd h (by simp)
      · obtain rfl : _ = results := by simpa using h
        exact ⟨(List.sorted_insertionSort scoreDesc _).sublist (List.take_sublist _ _),
          List.length_take_le _ _⟩

theorem formatResultsFrom_length :
    ∀ (k : ℕ) (rs : List ScoredProduct), (formatResultsFrom k rs).length = rs.length
  | _, [] => rfl
  | k, _ :: rs => by simp [formatResultsFrom, formatResultsFrom_length (k + 1) rs]

theorem formatResultsFrom_get :
    ∀ (k : ℕ) (rs : List ScoredProduct) (i : ℕ) (hr : i < rs.length)
      (hi : i < (formatResultsFrom k rs).length),
      (formatResultsFrom k rs).get ⟨i, hi⟩ = formatOne (rs.get ⟨i, hr⟩) (k + i)
  | _, _ :: _, 0, _, _ => rfl
  | k, r :: rs, i + 1, hr, hi => by
      have hr' : i < rs.length := by simpa using hr
      have hi' : i < (formatResultsFrom (k + 1) rs).length := by
        rw [formatResultsFrom_length]; exact hr'
      have := formatResultsFrom_get (k + 1) rs i hr' hi'
      simp only [formatResultsFrom, List.get_cons_succ]
      rw [this]
      congr 1
      omega

theorem mem_formatResultsFrom :
    ∀ {k : ℕ} {rs : List ScoredProduct} {f : FormattedResult},
      f ∈ formatResultsFrom k rs → ∃ r ∈ rs, ∃ j, f = formatOne r j := by
  intro k rs
  induction rs generalizing k with
  | nil => intro f h; exact absurd h (List.not_mem_nil f)
  | cons r rs ih =>
      intro f h
      rcases List.mem_cons.mp h with h1 | h2
      · exact ⟨r, List.mem_cons_self _ _, k, h1⟩
      · obtain ⟨r', hr', j, hj⟩ := ih h2
        exact ⟨r', List.mem_cons_of_mem _ hr', j, hj⟩

theorem jsRound_mono {x y : ℝ} (h : x ≤ y) : jsRound x ≤ jsRound y :=
  Int.floor_mono (by linarith)

theorem formatResultsFrom_pairwise :
    ∀ (k : ℕ) {rs : List ScoredProduct}, rs.Pairwise scoreDesc →
      (formatResultsFrom k rs).Pairwise fun a b => b.similarityScore ≤ a.similarityScore := by
  intro k rs h
  induction h generalizing k with
  | nil => exact List.Pairwise.nil
  | @cons a l hr _ ih =>
      refine List.Pairwise.cons ?_ (ih (k + 1))
      intro b hb
      obtain ⟨r', hr', j, rfl⟩ := mem_formatResultsFrom hb
      simp only [formatOne]
      exact jsRound_mono (mul_le_mul_of_nonneg_right (hr r' hr') (by norm_num))

theorem jsRound_percent_bounds {x : ℝ} (h0 : 0 ≤ x) (h1 : x ≤ 1) :
    0 ≤ jsRound (x * 100) ∧ jsRound (x * 100) ≤ 100 := by
  unfold jsRound
  constructor
  · rw [Int.floor_nonneg]
    nlinarith
  · have hlt : x * 100 + 1 / 2 < ((101 : ℤ) : ℝ) := by push_cast; nlinarith
    have := Int.floor_lt.mpr hlt
    omega

/-- C1 (amended): a successful search response holds at most 20 results,
ordered by descending similarityScore; entry i is the product fields of
result i with similarityScore = round(score × 100) and rank = i + 1; the
scores lie in [0, 100] provided every raw cosine score lies in [0, 1] (the
code never clamps, so this bound is conditional). -/
theorem C1_search_response (db : ProductDatabase) (q : List ℝ)
    (results : List ScoredProduct)
    (h : searchSimilar db q 20 = Except.ok results) :
    (formattedResults results).length ≤ 20 ∧
    (formattedResults results).Pairwise
      (fun a b => b.similarityScore ≤ a.similarityScore) ∧
    (∀ i (hi : i < (formattedResults results).length),
      ∃ hr : i < results.length,
        (formattedResults results).get ⟨i, hi⟩ = formatOne (results.get ⟨i, hr⟩) i) ∧
    (∀ (r : ScoredProduct) (i : ℕ),
      (formatOne r i).id = r.product.id ∧
      (formatOne r i).name = r.product.name ∧
      (formatOne r i).category = r.product.category ∧
      (formatOne r i).imageUrl = r.product.imageUrl ∧
      (formatOne r i).similarityScore = jsRound (r.score * 100) ∧
      (formatOne r i).rank = i + 1) ∧
    ((∀ r ∈ results, 0 ≤ r.score ∧ r.score ≤ 1) →
      ∀ f ∈ formattedResults results, 0 ≤ f.similarityScore ∧ f.similarityScore ≤ 100) := by
  obtain ⟨hsorted, hlen⟩ := searchSimilar_ok_sorted h
  refine ⟨?_, ?_, ?_, ?_, ?_⟩
  · rw [formattedResults, formatResultsFrom_length]
    exact hlen
  · exact formatResultsFrom_pairwise 0 hsorted
  · intro i hi
    have hr : i < results.length := by
      rw [formattedResults, formatResultsFrom_length] at hi
      exact hi
    exact ⟨hr, by simpa using formatResultsFrom_get 0 results i hr hi⟩
  · intro r i
    exact ⟨rfl, rfl, rfl, rfl, rfl, rfl⟩
  · intro hb f hf
    obtain ⟨r, hr, j, rfl⟩ := mem_formatResultsFrom hf
    exact jsRound_percent_bounds (hb r hr).1 (hb r hr).2

theorem cosValue_one_neg_one : cosValue [(1 : ℝ)] [(-1 : ℝ)] = -1 := by
  have h : cosValue [(1 : ℝ)] [(-1 : ℝ)] =
      if normSpec [(1 : ℝ)] = 0 ∨ normSpec [(-1 : ℝ)] = 0 then 0
      else dotSpec [(1 : ℝ)] [(-1 : ℝ)] / (normSpec [(1 : ℝ)] * normSpec [(-1 : ℝ)]) :=
    cosValue_eq _ _ rfl
  have hn1 : normSpec [(1 : ℝ)] = 1 := normSpec_single_one
  have hn2 : normSpec [(-1 : ℝ)] = 1 := by
    simp [normSpec, sumSqSpec]
  have hd : dotSpec [(1 : ℝ)] [(-1 : ℝ)] = -1 := by
    simp [dotSpec]
  rw [h, hn1, hn2, hd, if_neg (by norm_num)]
  norm_num

theorem cosValue_one_one : cosValue [(1 : ℝ)] [(1 : ℝ)] = 1 := by
  have h : cosValue [(1 : ℝ)] [(1 : ℝ)] =
      if normSpec [(1 : ℝ)] = 0 ∨ normSpec [(1 : ℝ)] = 0 then 0
      else dotSpec [(1 : ℝ)] [(1 : ℝ)] / (normSpec [(1 : ℝ)] * normSpec [(1 : ℝ)]) :=
    cosValue_eq _ _ rfl
  have hn1 : normSpec [(1 : ℝ)] = 1 := normSpec_single_one
  have hd : dotSpec [(1 : ℝ)] [(1 : ℝ)] = 1 := by
    simp [dotSpec]
  rw [h, hn1, hd, if_neg (by norm_num)]
  norm_num

theorem negDB_search_eval :
    searchSimilar negDB [(1 : ℝ)] 20 = Except.ok [ScoredProduct.mk negProduct (-1)] := by
  have hc : collectScores [(1 : ℝ)] [("prod_neg", [(-1 : ℝ)])] [negProduct] =
      Except.ok [ScoredProduct.mk negProduct (-1)] := by
    simp [collectScores, negProduct, List.lookup_cons, cosineSimilarity,
      cosValue_one_neg_one]
  simp [searchSimilar, negDB, hc]

theorem sampleDB_search_eval :
    searchSimilar sampleDB [(1 : ℝ)] 20 = Except.ok [ScoredProduct.mk sampleProduct 1] := by
  have hc : collectScores [(1 : ℝ)] [("prod_001", [(1 : ℝ)])] [sampleProduct] =
      Except.ok [ScoredProduct.mk sampleProduct 1] := by
    simp [collectScores, sampleProduct, List.lookup_cons, cosineSimilarity,
      cosValue_one_one]
  simp [searchSimilar, sampleDB, hc]

theorem jsRound_neg_hundred : jsRound ((-100 : ℝ)) = -100 := by
  unfold jsRound
  rw [Int.floor_eq_iff]
  constructor <;> norm_num

/-- Counterexample to C1 as stated: on a catalog whose embedding points
opposite to the query embedding the raw cosine score is -1 and the response
entry carries similarityScore = -100, outside [0, 100]. -/
theorem C1_counterexample :
    (searchSimilar negDB [(1 : ℝ)] 20).map formattedResults =
      Except.ok [{ id := "prod_neg", name := "Opposite", category := "Test",
                   imageUrl := "/images/opp.jpg", similarityScore := -100, rank := 1 }] ∧
    ¬ (0 ≤ (-100 : ℤ)) := by
  constructor
  · rw [negDB_search_eval]
    simp [Except.map, formattedResults, formatResultsFrom, formatOne, negProduct,
      jsRound_neg_hundred]
  · norm_num

/-- Witness for C1 (amended) on a one-product database whose raw score is 1. -/
theorem C1_witness :
    searchSimilar sampleDB [(1 : ℝ)] 20 = Except.ok [ScoredProduct.mk sampleProduct 1] ∧
    (formattedResults [ScoredProduct.mk sampleProduct 1]).length ≤ 20 ∧
    (∀ f ∈ formattedResults [ScoredProduct.mk sampleProduct 1],
      0 ≤ f.similarityScore ∧ f.similarityScore ≤ 100) :=
  ⟨sampleDB_search_eval,
    (C1_search_response sampleDB [1] _ sampleDB_search_eval).1,
    (C1_search_response sampleDB [1] _ sampleDB_search_eval).2.2.2.2 (by simp)⟩

/-! ## Error mapping of the search route -/

theorem acquireImage_of_obtained {req : SearchRequest} {fx : SearchEffects}
    (h : imageObtained req fx) : ∃ u, acquireImage req fx = Except.ok u := by
  rcases h with h | ⟨u, hu, hne, hv, hf⟩
  · exact ⟨"uploaded-file", by simp [acquireImage, h]⟩
  · cases hhf : req.hasFile with
    | true => exact ⟨"uploaded-file", by simp [acquireImage, hhf]⟩
    | false => exact ⟨u, by simp [acquireImage, hhf, hu, hne, hv, hf]⟩

/-- C4: the search route responds 400 VALIDATION_ERROR when neither file
nor imageUrl is given; 400 INVALID_IMAGE when the URL fails format
validation, fails to load, or the buffer fails image validation; 500
PROCESSING_ERROR when feature extraction fails after a valid image; and 500
DATABASE_ERROR when the similarity search fails. -/
theorem C4_search_errors (db : ProductDatabase) (req : SearchRequest)
    (fx : SearchEffects) (nodeEnv stack : String) :
    (req.hasFile = false → (req.imageUrl = none ∨ req.imageUrl = some "") →
      statusOf (searchEndpoint db req fx nodeEnv stack) = 400 ∧
      codeOf (searchEndpoint db req fx nodeEnv stack) = some "VALIDATION_ERROR") ∧
    (∀ u, req.hasFile = false → req.imageUrl = some u → u ≠ "" →
      (fx.urlFormatValid = false ∨ ∃ e, fx.fetchResult = Except.error e) →
      statusOf (searchEndpoint db req fx nodeEnv stack) = 400 ∧
      codeOf (searchEndpoint db req fx nodeEnv stack) = some "INVALID_IMAGE") ∧
    (imageObtained req fx →
      (∃ e, validateImage fx.bufferLength fx.sharp = ValidationResult.invalid e) →
      statusOf (searchEndpoint db req fx nodeEnv stack) = 400 ∧
      codeOf (searchEndpoint db req fx nodeEnv stack) = some "INVALID_IMAGE") ∧
    (imageObtained req fx →
      (∃ f w hgt sz, validateImage fx.bufferLength fx.sharp =
        ValidationResult.valid f w hgt sz) →
      (∃ e, fx.extraction = Except.error e) →
      statusOf (searchEndpoint db req fx nodeEnv stack) = 500 ∧
      codeOf (searchEndpoint db req fx nodeEnv stack) = some "PROCESSING_ERROR") ∧
    (imageObtained req fx →
      (∃ f w hgt sz, validateImage fx.bufferLength fx.sharp =
        ValidationResult.valid f w hgt sz) →
      ∀ emb, fx.extraction = Except.ok emb →
      (∃ e, searchSimilar db emb 20 = Except.error e) →
      statusOf (searchEndpoint db req fx nodeEnv stack) = 500 ∧
      codeOf (searchEndpoint db req fx nodeEnv stack) = some "DATABASE_ERROR") := by
  refine ⟨?_, ?_, ?_, ?_, ?_⟩
  · intro h1 h2
    have hh : searchHandler db req fx = Except.error ⟨"VALIDATION_ERROR",
        "No image provided. Please upload an image file or provide an imageUrl", 400⟩ := by
      rcases h2 with h2 | h2 <;> simp [searchHandler, acquireImage, h1, h2]
    simp only [searchEndpoint, hh]
    exact ⟨rfl, rfl⟩
  · intro u h1 h2 h3 h4
    rcases h4 with h4 | ⟨e, h4⟩
    · have hh : searchHandler db req fx =
          Except.error ⟨"INVALID_IMAGE", "Invalid image URL format", 400⟩ := by
        simp [searchHandler, acquireImage, h1, h2, h3, h4]
      simp only [searchEndpoint, hh]
      exact ⟨rfl, rfl⟩
    · cases hv : fx.urlFormatValid with
      | false =>
          have hh : searchHandler db req fx =
              Except.error ⟨"INVALID_IMAGE", "Invalid image URL format", 400⟩ := by
            simp [searchHandler, acquireImage, h1, h2, h3, hv]
          simp only [searchEndpoint, hh]
          exact ⟨rfl, rfl⟩
      | true =>
          have hh : searchHandler db req fx = Except.error ⟨"INVALID_IMAGE", e, 400⟩ := by
            simp [searchHandler, acquireImage, h1, h2, h3, hv, h4]
          simp only [searchEndpoint, hh]
          exact ⟨rfl, rfl⟩
  · intro h1 ⟨e, h2⟩
    obtain ⟨u, hu⟩ := acquireImage_of_obtained h1
    have hh : searchHandler db req fx = Except.error ⟨"INVALID_IMAGE", e, 400⟩ := by
      simp [searchHandler, hu, h2]
    simp only [searchEndpoint, hh]
    exact ⟨rfl, rfl⟩
  · intro h1 ⟨f, w, hgt, sz, h2⟩ ⟨e, h3⟩
    obtain ⟨u, hu⟩ := acquireImage_of_obtained h1
    have hh : searchHandler db req fx =
        Except.error ⟨"PROCESSING_ERROR", "Failed to process image", 500⟩ := by
      simp [searchHandler, hu, h2, h3]
    simp only [searchEndpoint, hh]
    exact ⟨rfl, rfl⟩
  · intro h1 ⟨f, w, hgt, sz, h2⟩ emb h3 ⟨e, h4⟩
    obtain ⟨u, hu⟩ := acquireImage_of_obtained h1
    have hh : searchHandler db req fx =
        Except.error ⟨"DATABASE_ERROR", "Failed to search for similar products", 500⟩ := by
      simp [searchHandler, hu, h2, h3, h4]
    simp only [searchEndpoint, hh]
    exact ⟨rfl, rfl⟩

/-- Witness for C4: a request with no image yields 400 VALIDATION_ERROR and
a file request whose search step throws (unloaded database) yields 500
DATABASE_ERROR. -/
theorem C4_witness :
    (statusOf (searchEndpoint unloadedDB reqNone fxGood "production" "st") = 400 ∧
      codeOf (searchEndpoint unloadedDB reqNone fxGood "production" "st") =
        some "VALIDATION_ERROR") ∧
    (statusOf (searchEndpoint unloadedDB reqFile fxGood "production" "st") = 500 ∧
      codeOf (searchEndpoint unloadedDB reqFile fxGood "production" "st") =
        some "DATABASE_ERROR") :=
  ⟨(C4_search_errors unloadedDB reqNone fxGood "production" "st").1 rfl (Or.inl rfl),
    (C4_search_errors unloadedDB reqFile fxGood "production" "st").2.2.2.2
      (Or.inl rfl) ⟨"png", 100, 100, 1000, rfl⟩ [1] rfl
      ⟨"Products not loaded. Call loadProducts() first.", rfl⟩⟩

/-! ## Image validation -/

/-- C5: validateImage rejects buffers strictly over 10 MiB with the
size message (a buffer of at most 10 MiB is never rejected for its size),
rejects buffers under 100 bytes as too small, rejects undecodable buffers,
disallowed formats and out-of-range dimensions with their messages, accepts
everything else with the metadata, and converts any unexpected exception
into the generic failed-to-validate rejection instead of throwing. -/
theorem C5_validateImage (len : ℕ) (sharp : SharpOutcome) :
    (maxFileSizeBytes < len →
      validateImage len sharp =
        ValidationResult.invalid "Image size exceeds maximum allowed size of 10MB") ∧
    (len ≤ maxFileSizeBytes →
      validateImage len sharp ≠
        ValidationResult.invalid "Image size exceeds maximum allowed size of 10MB") ∧
    (len < 100 →
      validateImage len sharp = ValidationResult.invalid "Image file is too small or corrupted") ∧
    (100 ≤ len → len ≤ maxFileSizeBytes → sharp = SharpOutcome.decodeError →
      validateImage len sharp = ValidationResult.invalid "Invalid or corrupted image file") ∧
    (100 ≤ len → len ≤ maxFileSizeBytes → sharp = SharpOutcome.exn →
      validateImage len sharp = ValidationResult.invalid "Failed to validate image") ∧
    (∀ m : ImageMetadata, 100 ≤ len → len ≤ maxFileSizeBytes →
      sharp = SharpOutcome.meta m →
      ((("image/" ++ m.format) ∉ allowedFormats →
        validateImage len sharp = ValidationResult.invalid
          "Unsupported image format. Allowed formats: image/jpeg, image/png, image/webp, image/gif") ∧
      (("image/" ++ m.format) ∈ allowedFormats → (m.width < 50 ∨ m.height < 50) →
        validateImage len sharp =
          ValidationResult.invalid "Image dimensions too small. Minimum: 50x50px") ∧
      (("image/" ++ m.format) ∈ allowedFormats → 50 ≤ m.width → 50 ≤ m.height →
        (4096 < m.width ∨ 4096 < m.height) →
        validateImage len sharp =
          ValidationResult.invalid "Image dimensions too large. Maximum: 4096x4096px") ∧
      (("image/" ++ m.format) ∈ allowedFormats → 50 ≤ m.width → 50 ≤ m.height →
        m.width ≤ 4096 → m.height ≤ 4096 →
        validateImage len sharp = ValidationResult.valid m.format m.width m.height len))) := by
  refine ⟨?_, ?_, ?_, ?_, ?_, ?_⟩
  · intro h
    simp [validateImage, h]
  · intro h
    have hno : ¬ maxFileSizeBytes < len := not_lt.mpr h
    by_cases h2 : len < 100
    · simp [validateImage, hno, h2]
    · cases sharp with
      | decodeError => simp [validateImage, hno, h2]
      | exn => simp [validateImage, hno, h2]
      | meta m =>
          simp only [validateImage, if_neg hno, if_neg h2]
          split
          · decide
          · split
            · decide
            · split
              · decide
              · simp
  · intro h2
    have hno : ¬ maxFileSizeBytes < len := by
      simp only [maxFileSizeBytes]
      omega
    simp [validateImage, hno, h2]
  · intro h100 hmax hs
    subst hs
    simp [validateImage, not_lt.mpr hmax, not_lt.mpr h100]
  · intro h100 hmax hs
    subst hs
    simp [validateImage, not_lt.mpr hmax, not_lt.mpr h100]
  · intro m h100 hmax hs
    subst hs
    refine ⟨?_, ?_, ?_, ?_⟩
    · intro hfmt
      simp [validateImage, not_lt.mpr hmax, not_lt.mpr h100, hfmt]
    · intro hfmt hdim
      simp [validateImage, not_lt.mpr hmax, not_lt.mpr h100, hfmt, hdim]
    · intro hfmt hw hh hdim
      simp [validateImage, not_lt.mpr hmax, not_lt.mpr h100, hfmt,
        not_lt.mpr hw, not_lt.mpr hh, hdim]
    · intro hfmt hw hh hw2 hh2
      simp [validateImage, not_lt.mpr hmax, not_lt.mpr h100, hfmt,
        not_lt.mpr hw, not_lt.mpr hh, not_lt.mpr hw2, not_lt.mpr hh2]

/-- Witness for C5 at the 10 MiB boundary and below the 100-byte minimum. -/
theorem C5_witness :
    validateImage (10 * 1024 * 1024 + 1)
        (SharpOutcome.meta { format := "png", width := 100, height := 100 }) =
      ValidationResult.invalid "Image size exceeds maximum allowed size of 10MB" ∧
    validateImage (10 * 1024 * 1024)
        (SharpOutcome.meta { format := "png", width := 100, height := 100 }) ≠
      ValidationResult.invalid "Image size exceeds maximum allowed size of 10MB" ∧
    validateImage (10 * 1024 * 1024)
        (SharpOutcome.meta { format := "png", width := 100, height := 100 }) =
      ValidationResult.valid "png" 100 100 (10 * 1024 * 1024) ∧
    validateImage 50 SharpOutcome.exn =
      ValidationResult.invalid "Image file is too small or corrupted" ∧
    validateImage 5000 SharpOutcome.exn =
      ValidationResult.invalid "Failed to validate image" :=
  ⟨(C5_validateImage _ _).1 (by decide),
    (C5_validateImage _ _).2.1 (by decide),
    ((C5_validateImage _ _).2.2.2.2.2 { format := "png", width := 100, height := 100 }
        (by decide) (by decide) rfl).2.2.2
      (by decide) (by decide) (by decide) (by decide) (by decide),
    (C5_validateImage _ _).2.2.1 (by decide),
    (C5_validateImage _ _).2.2.2.2.1 (by decide) (by decide) rfl⟩

/-! ## The error-handling middleware -/

/-- C6: every response of the errorHandler middleware has success false and
the error, code and actionable fields, carries a stack only outside
production mode, and an application error with code RATE_LIMIT_EXCEEDED
always yields status 429, code RATE_LIMIT_EXCEEDED and a non-empty
actionable string. -/
theorem C6_errorHandler (err : ServerError) (nodeEnv : String) :
    (errorHandler err nodeEnv).success = false ∧
    (nodeEnv = "production" → (errorHandler err nodeEnv).stack = none) ∧
    (∀ message statusCode stack,
      (errorHandler (ServerError.apiError "RATE_LIMIT_EXCEEDED" message statusCode stack)
        nodeEnv).status = 429 ∧
      (errorHandler (ServerError.apiError "RATE_LIMIT_EXCEEDED" message statusCode stack)
        nodeEnv).code = "RATE_LIMIT_EXCEEDED" ∧
      (errorHandler (ServerError.apiError "RATE_LIMIT_EXCEEDED" message statusCode stack)
        nodeEnv).actionable ≠ "") := by
  refine ⟨?_, ?_, ?_⟩
  · cases err with
    | apiError c m sc st =>
        simp only [errorHandler]
        split <;> rfl
    | multerError a b c => rfl
    | validationError a b => rfl
    | genericError a b => rfl
  · intro hp
    subst hp
    cases err with
    | apiError c m sc st =>
        simp only [errorHandler]
        split <;> rfl
    | multerError a b c => rfl
    | validationError a b => rfl
    | genericError a b => rfl
  · intro m sc st
    refine ⟨rfl, rfl, ?_⟩
    have ha : (errorHandler (ServerError.apiError "RATE_LIMIT_EXCEEDED" m sc st)
        nodeEnv).actionable = "Please wait a few seconds before making another request" := rfl
    rw [ha]
    decide

/-- Witness for C6 at a generic error in production and a concrete
rate-limit error. -/
theorem C6_witness :
    (errorHandler (ServerError.genericError "boom" "st") "production").success = false ∧
    (errorHandler (ServerError.genericError "boom" "st") "production").stack = none ∧
    (errorHandler (ServerError.apiError "RATE_LIMIT_EXCEEDED" "" 500 "st")
      "production").status = 429 ∧
    (errorHandler (ServerError.apiError "RATE_LIMIT_EXCEEDED" "" 500 "st")
      "production").code = "RATE_LIMIT_EXCEEDED" ∧
    (errorHandler (ServerError.apiError "RATE_LIMIT_EXCEEDED" "" 500 "st")
      "production").actionable ≠ "" :=
  ⟨(C6_errorHandler (ServerError.genericError "boom" "st") "production").1,
    (C6_errorHandler (ServerError.genericError "boom" "st") "production").2.1 rfl,
    ((C6_errorHandler (ServerError.genericError "boom" "st") "production").2.2 "" 500 "st").1,
    ((C6_errorHandler (ServerError.genericError "boom" "st") "production").2.2 "" 500 "st").2.1,
    ((C6_errorHandler (ServerError.genericError "boom" "st") "production").2.2 "" 500 "st").2.2⟩

/-- C10: a thrown value that is neither an APIError nor named MulterError
nor named ValidationError is answered with status 500 and code
SERVICE_UNAVAILABLE (whose canonical mapping is status 503), the message
being the error's own when present and the generic one otherwise. -/
theorem C10_generic_error (message stack nodeEnv : String) :
    (errorHandler (ServerError.genericError message stack) nodeEnv).status = 500 ∧
    (errorHandler (ServerError.genericError message stack) nodeEnv).code =
      "SERVICE_UNAVAILABLE" ∧
    (message ≠ "" →
      (errorHandler (ServerError.genericError message stack) nodeEnv).error = message) ∧
    (message = "" →
      (errorHandler (ServerError.genericError message stack) nodeEnv).error =
        "An unexpected error occurred") ∧
    errorMapping "SERVICE_UNAVAILABLE" =
      some (503, "The service is temporarily unavailable. Please try again in a few moments.") := by
  refine ⟨rfl, rfl, ?_, ?_, rfl⟩
  · intro h
    simp [errorHandler, h]
  · intro h
    subst h
    rfl

/-- Witness for C10 with a present and an absent message. -/
theorem C10_witness :
    (errorHandler (ServerError.genericError "boom" "s") "test").error = "boom" ∧
    (errorHandler (ServerError.genericError "" "s") "test").error =
      "An unexpected error occurred" ∧
    (errorHandler (ServerError.genericError "boom" "s") "test").status = 500 ∧
    (errorHandler (ServerError.genericError "boom" "s") "test").code =
      "SERVICE_UNAVAILABLE" :=
  ⟨(C10_generic_error "boom" "s" "test").2.2.1 (by decide),
    (C10_generic_error "" "s" "test").2.2.2.1 rfl,
    (C10_generic_error "boom" "s" "test").1,
    (C10_generic_error "boom" "s" "test").2.1⟩

/-! ## Client-side retry behaviour -/

theorem runSearch_replicate_retries (um ua : Option String) :
    ∀ (n : ℕ) (s : AppState) (e : AppState × Option ℕ),
      e ∈ runSearch 0 s (List.replicate n (AttemptOutcome.failure true um ua)) →
      e.2 = some 1000 := by
  intro n
  induction n with
  | zero =>
      intro s e he
      simp [runSearch] at he
  | succ n ih =>
      intro s e he
      have hstep : handleImageSubmit 0 s (AttemptOutcome.failure true um ua) =
          ({ s with isLoading := false, error := none, retryCount := s.retryCount + 1 },
            some 1000) := by
        obtain ⟨a, b, c, d⟩ := s
        simp [handleImageSubmit, maxRetries]
      rw [List.replicate_succ] at he
      simp only [runSearch, hstep] at he
      rcases List.mem_cons.mp he with rfl | he2
      · rfl
      · exact ih _ e he2

/-- C7 (amended): on a retryable failure the retry guard, the backoff delay
and the banner's retryable flag read the retryCount captured by the
render-time closure, which stays frozen for the whole setTimeout retry
chain; when that captured count is below 2, the committed counter is
incremented and the same submission is re-invoked after
1000 ms × (captured count + 1), while the finally clause clears the loading
flag at the end of every attempt, so loading is not held continuously.  For
a fresh user submission (captured count 0) that fails twice with a
retryable error and succeeds on the third attempt, exactly three calls are
issued, both backoff delays are 1000 ms (not 1 s then 2 s), and the final
state holds the results with no error banner; because the frozen count
never reaches 2, a chain of retryable failures schedules a 1000 ms retry on
every attempt and the 2-retry cap is never enforced within the chain. -/
theorem C7_retry_behavior (c n : ℕ) (s : AppState) (um ua : Option String) (rs : List ℕ) :
    (c < maxRetries →
      handleImageSubmit c s (AttemptOutcome.failure true um ua) =
        ({ s with isLoading := false, error := none, retryCount := s.retryCount + 1 },
          some (1000 * (c + 1)))) ∧
    (handleImageSubmit c s (AttemptOutcome.failure true um ua)).1.isLoading = false ∧
    runSearch 0 initialAppState
        [AttemptOutcome.failure true um ua, AttemptOutcome.failure true um ua,
          AttemptOutcome.success rs] =
      [({ initialAppState with retryCount := 1 }, some 1000),
        ({ initialAppState with retryCount := 2 }, some 1000),
        ({ initialAppState with searchResults := rs }, none)] ∧
    (∀ e : AppState × Option ℕ,
      e ∈ runSearch 0 s (List.replicate n (AttemptOutcome.failure true um ua)) →
      e.2 = some 1000) := by
  refine ⟨?_, ?_, ?_, fun e he => runSearch_replicate_retries um ua n s e he⟩
  · intro h
    obtain ⟨a, b, cc, d⟩ := s
    simp [handleImageSubmit, h]
  · obtain ⟨a, b, cc, d⟩ := s
    simp only [handleImageSubmit]
    split <;> rfl
  · simp [runSearch, handleImageSubmit, initialAppState, maxRetries]

/-- Counterexample to C7 as stated: a fresh submission that fails twice
with a retryable error schedules its second retry after 1000 ms, not the
claimed 1000 ms × (current retry count + 1) = 2000 ms, because the stale
closure still reads the captured count 0 even though the committed counter
is already 1; and the loading flag has been cleared by the finally clause
while each retry is pending, so loading is not shown continuously. -/
theorem C7_counterexample :
    runSearch 0 initialAppState
        [AttemptOutcome.failure true none none, AttemptOutcome.failure true none none] =
      [({ initialAppState with retryCount := 1 }, some 1000),
        ({ initialAppState with retryCount := 2 }, some 1000)] ∧
    some (1000 : ℕ) ≠ some 2000 ∧
    ({ initialAppState with retryCount := 1 } : AppState).isLoading = false :=
  ⟨by decide, by decide, rfl⟩

/-- Witness for C7 (amended) on the three-attempt scenario and a chain of
three retryable failures started with captured count 0. -/
theorem C7_witness :
    handleImageSubmit 0 initialAppState (AttemptOutcome.failure true none none) =
      ({ initialAppState with retryCount := 1 }, some 1000) ∧
    runSearch 0 initialAppState
        [AttemptOutcome.failure true none none, AttemptOutcome.failure true none none,
          AttemptOutcome.success [5]] =
      [({ initialAppState with retryCount := 1 }, some 1000),
        ({ initialAppState with retryCount := 2 }, some 1000),
        ({ initialAppState with searchResults := [5] }, none)] ∧
    (({ initialAppState with retryCount := 3 }, some (1000 : ℕ)) :
        AppState × Option ℕ).2 = some 1000 :=
  ⟨(C7_retry_behavior 0 3 initialAppState none none [5]).1 (by decide),
    (C7_retry_behavior 0 3 initialAppState none none [5]).2.2.1,
    (C7_retry_behavior 0 3 initialAppState none none [5]).2.2.2
      ({ initialAppState with retryCount := 3 }, some 1000) (by decide)⟩

/-! ## CORS policy -/

/-- C8 (amended): requests with no Origin header are always allowed; under
NODE_ENV development (not every non-production mode) any origin containing
localhost is allowed outright; otherwise a non-empty origin is allowed
exactly when it is an entry of the comma-separated FRONTEND_URL allow-list,
which defaults to http://localhost:5173. -/
theorem C8_cors (nodeEnv : String) (frontendUrl : Option String) (o : String) :
    corsOriginAllows nodeEnv frontendUrl none = true ∧
    (nodeEnv = "development" → jsIncludes o "localhost" = true →
      corsOriginAllows nodeEnv frontendUrl (some o) = true) ∧
    (o ≠ "" → ¬ (nodeEnv = "development" ∧ jsIncludes o "localhost" = true) →
      (corsOriginAllows nodeEnv frontendUrl (some o) = true ↔
        o ∈ allowedOriginsOf frontendUrl)) ∧
    allowedOriginsOf none = ["http://localhost:5173"] := by
  refine ⟨rfl, ?_, ?_, rfl⟩
  · intro h1 h2
    by_cases ho : o = "" <;> simp [corsOriginAllows, ho, h1, h2]
  · intro h1 h2
    simp [corsOriginAllows, h1, h2]

/-- Counterexample to C8 as stated: NODE_ENV test is a non-production mode,
yet an origin containing localhost that is not in the allow-list is
rejected, because the code tests for the development mode exactly. -/
theorem C8_counterexample :
    "test" ≠ "production" ∧
    jsIncludes "http://localhost:9999" "localhost" = true ∧
    corsOriginAllows "test" none (some "http://localhost:9999") = false :=
  ⟨by decide, by decide, by decide⟩

/-- Witness for C8 (amended) on the default allow-list in production mode:
the default frontend origin is allowed, a foreign origin is rejected, and a
request without an Origin header is allowed. -/
theorem C8_witness :
    corsOriginAllows "production" none (some "http://localhost:5173") = true ∧
    corsOriginAllows "production" none (some "https://evil.example.com") = false ∧
    corsOriginAllows "production" none none = true :=
  ⟨((C8_cors "production" none "http://localhost:5173").2.2.1
        (by decide) (by decide)).mpr (by decide),
    by decide,
    (C8_cors "production" none "https://evil.example.com").1⟩

/-! ## Threshold filtering of displayed results -/

/-- C9: the displayed list is exactly the stable filter of the results by
similarityScore ≥ threshold, and the count shown by the filter control is
its length. -/
theorem C9_filter (products : List ClientProduct) (T : ℚ) :
    List.Sublist (filteredProducts products T) products ∧
    (∀ p ∈ filteredProducts products T, T ≤ p.similarityScore) ∧
    (∀ p ∈ products, T ≤ p.similarityScore → p ∈ filteredProducts products T) ∧
    filterResultCount products T =
      products.countP fun p => decide (T ≤ p.similarityScore) := by
  refine ⟨List.filter_sublist products, ?_, ?_, ?_⟩
  · intro p hp
    have := (List.mem_filter.mp hp).2
    simpa using this
  · intro p hp hT
    exact List.mem_filter.mpr ⟨hp, by simpa using hT⟩
  · rw [filterResultCount, filteredProducts, List.countP_eq_length_filter]

/-- Witness for C9 on the specification's boundary example: scores
[95, 87, 72] with threshold 80 keep exactly the first two, in order,
with count 2. -/
theorem C9_witness :
    filteredProducts demoResults 80 = [demoA, demoB] ∧
    filterResultCount demoResults 80 = 2 ∧
    demoA ∈ filteredProducts demoResults 80 ∧
    List.Sublist (filteredProducts demoResults 80) demoResults :=
  ⟨by decide, by decide,
    (C9_filter demoResults 80).2.2.1 demoA (by decide) (by decide),
    (C9_filter demoResults 80).1⟩

end VPM
